import Mathlib

/-!
Verification development for the clientagent role of the Astron server
(`src/clientagent/ClientAgent.cpp`).

The development shallowly embeds the code into Lean:

* `ChannelTracker` with `alloc_channel` / `free_channel` mirrors the helper
  class at the bottom of the file.  The C++ `channel_t` is `uint64_t`; we
  model channel values as `Nat` and reduce modulo `channelMod = 2 ^ 64`
  exactly where the machine arithmetic can overflow (the `m_next++`
  post-increment).  The `std::queue` is modelled as a `List` whose head is
  the queue front; `push` appends at the back, `pop` drops the head.
* A small trace semantics (`Op`, `TrackerTrace`, `stepOp`, `runOps`)
  executes sequences of `alloc_channel` / `free_channel` calls while
  keeping ghost books: the multiset of currently live (allocated and not
  yet released) channels and the list of all ids ever issued.
* `clientAgentStartup` mirrors the transport-selection and bind logic of
  the `ClientAgent` constructor; `handle_tcp` / `handle_ssl` mirror the
  per-connection accept handlers; `resolve_hash` mirrors the DC-hash
  resolution.
-/

/-- Modulus of the 64-bit unsigned `channel_t` arithmetic. -/
def channelMod : Nat := 2 ^ 64

/-- Modelled from the spec: `INVALID_CHANNEL`, the invalid-channel sentinel
(the reserved value excluded from every valid allocation range); its
definition lives in the repository headers outside the given source file.
The spec describes it as the sentinel a valid channel range must exclude,
and the allocator uses the same value `0` for its exhausted result. -/
def INVALID_CHANNEL : Nat := 0

/-- Value returned by `alloc_channel` when no channel is available
(`return 0;` at the end of `ChannelTracker::alloc_channel`). -/
def EXHAUSTED : Nat := 0

/-- State of `ChannelTracker`: the cursor `m_next`, the inclusive upper
bound `m_max`, and the FIFO reuse queue `m_unused_channels` (head of the
list = front of the `std::queue`). -/
structure ChannelTracker where
  m_next : Nat
  m_max : Nat
  m_unused_channels : List Nat
deriving Repr, DecidableEq

/-- Constructor `ChannelTracker(channel_t min, channel_t max)`:
`m_next = min`, `m_max = max`, empty reuse queue. -/
def ChannelTracker.init (mn mx : Nat) : ChannelTracker :=
  { m_next := mn, m_max := mx, m_unused_channels := [] }

/-- Embedding of `ChannelTracker::alloc_channel`: if `m_next <= m_max`,
return `m_next++` (post-increment, 64-bit wraparound); otherwise pop and
return the queue front if the queue is non-empty; otherwise return `0`. -/
def ChannelTracker.alloc_channel (t : ChannelTracker) : Nat × ChannelTracker :=
  if t.m_next ≤ t.m_max then
    (t.m_next, { t with m_next := (t.m_next + 1) % channelMod })
  else
    match t.m_unused_channels with
    | [] => (0, t)
    | c :: rest => (c, { t with m_unused_channels := rest })

/-- Embedding of `ChannelTracker::free_channel`: unconditionally push the
argument onto the back of the reuse queue. -/
def ChannelTracker.free_channel (t : ChannelTracker) (channel : Nat) : ChannelTracker :=
  { t with m_unused_channels := t.m_unused_channels ++ [channel] }

/-- Decides whether the tracker is exhausted: the cursor has passed
`m_max` and the reuse queue is empty (the configuration in which
`alloc_channel` reaches its final `return 0`). -/
def ChannelTracker.exhaustedB (t : ChannelTracker) : Bool :=
  !decide (t.m_next ≤ t.m_max) && t.m_unused_channels.isEmpty

theorem alloc_channel_cursor (t : ChannelTracker) (h : t.m_next ≤ t.m_max) :
    t.alloc_channel =
      (t.m_next, { t with m_next := (t.m_next + 1) % channelMod }) := by
  unfold ChannelTracker.alloc_channel
  rw [if_pos h]

theorem alloc_channel_queue (t : ChannelTracker) (c : Nat) (rest : List Nat)
    (h : ¬ t.m_next ≤ t.m_max) (hq : t.m_unused_channels = c :: rest) :
    t.alloc_channel = (c, { t with m_unused_channels := rest }) := by
  unfold ChannelTracker.alloc_channel
  rw [if_neg h, hq]

theorem alloc_channel_exhausted (t : ChannelTracker)
    (h : ¬ t.m_next ≤ t.m_max) (hq : t.m_unused_channels = []) :
    t.alloc_channel = (0, t) := by
  unfold ChannelTracker.alloc_channel
  rw [if_neg h, hq]

/-- One call made by a client of the tracker: `alloc` is
`alloc_channel()`, `free c` is `free_channel(c)`. -/
inductive Op where
  | alloc : Op
  | free : Nat → Op
deriving Repr, DecidableEq

/-- Tracker state with ghost bookkeeping for reasoning about call
sequences: `live` is the list of channels returned by successful
allocations and not yet passed to `free_channel` (one entry per
outstanding allocation), `issued` records every id a successful
allocation ever returned. -/
structure TrackerTrace where
  tracker : ChannelTracker
  live : List Nat
  issued : List Nat
deriving Repr, DecidableEq

/-- State just after `ChannelTracker(mn, mx)`: nothing live, nothing
issued. -/
def initTrace (mn mx : Nat) : TrackerTrace :=
  { tracker := ChannelTracker.init mn mx, live := [], issued := [] }

/-- Executes one operation.  An `alloc` against an exhausted tracker is
the failure return (`0`); it leaves the ghost books unchanged.  A
successful `alloc` records its result as live and issued.  A `free c`
runs `free_channel` and retires one live entry equal to `c` (if any). -/
def stepOp (s : TrackerTrace) : Op → TrackerTrace
  | Op.alloc =>
    if s.tracker.exhaustedB then
      { s with tracker := s.tracker.alloc_channel.2 }
    else
      { tracker := s.tracker.alloc_channel.2,
        live := s.tracker.alloc_channel.1 :: s.live,
        issued := s.tracker.alloc_channel.1 :: s.issued }
  | Op.free c =>
    { s with tracker := s.tracker.free_channel c, live := s.live.erase c }

/-- Executes a sequence of operations from a given state. -/
def runOps (s : TrackerTrace) : List Op → TrackerTrace
  | [] => s
  | op :: ops => runOps (stepOp s op) ops

/-- Caller contract on a sequence of operations: every `free c` is made
while `c` is live (so callers release only ids they were allocated and
have not released yet).  `alloc` calls are unrestricted. -/
def validOps (s : TrackerTrace) : List Op → Bool
  | [] => true
  | Op.alloc :: ops => validOps (stepOp s Op.alloc) ops
  | Op.free c :: ops => decide (c ∈ s.live) && validOps (stepOp s (Op.free c)) ops

/-- Inductive invariant of the tracker over the range `[mn, mx]`:
the cursor stays within `[mn, mx + 1]`, every live or queued id lies
below the cursor (so it was produced by the cursor at some point), live
and queued ids are jointly distinct, and both live and queued ids were
issued by some successful allocation. -/
structure TrackerInv (mn mx : Nat) (s : TrackerTrace) : Prop where
  next_lb : mn ≤ s.tracker.m_next
  next_ub : s.tracker.m_next ≤ mx + 1
  max_eq : s.tracker.m_max = mx
  live_bounds : ∀ c ∈ s.live, mn ≤ c ∧ c < s.tracker.m_next
  queue_bounds : ∀ c ∈ s.tracker.m_unused_channels, mn ≤ c ∧ c < s.tracker.m_next
  nodup_live_queue : (s.live ++ s.tracker.m_unused_channels).Nodup
  live_issued : ∀ c ∈ s.live, c ∈ s.issued
  queue_issued : ∀ c ∈ s.tracker.m_unused_channels, c ∈ s.issued

theorem initTrace_inv (mn mx : Nat) (hle : mn ≤ mx) :
    TrackerInv mn mx (initTrace mn mx) := by
  constructor <;> simp [initTrace, ChannelTracker.init]
  exact Nat.le_succ_of_le hle

theorem stepOp_alloc_exhausted (s : TrackerTrace)
    (hex : s.tracker.exhaustedB = true) : stepOp s Op.alloc = s := by
  have h12 := hex
  simp [ChannelTracker.exhaustedB, List.isEmpty_iff] at h12
  obtain ⟨h1, h2⟩ := h12
  have h1n : ¬ s.tracker.m_next ≤ s.tracker.m_max := by omega
  simp [stepOp, hex, alloc_channel_exhausted s.tracker h1n h2]

theorem stepOp_alloc_inv (mn mx : Nat) (s : TrackerTrace)
    (hmx : mx + 1 < channelMod) (hinv : TrackerInv mn mx s) :
    TrackerInv mn mx (stepOp s Op.alloc) := by
  cases hex : s.tracker.exhaustedB with
  | true => rw [stepOp_alloc_exhausted s hex]; exact hinv
  | false =>
    by_cases hle : s.tracker.m_next ≤ s.tracker.m_max
    · -- fresh id from the cursor
      have hmod : (s.tracker.m_next + 1) % channelMod = s.tracker.m_next + 1 := by
        apply Nat.mod_eq_of_lt
        have : s.tracker.m_next ≤ mx := hinv.max_eq ▸ hle
        omega
      have hexb : s.tracker.exhaustedB = false := by
        simp [ChannelTracker.exhaustedB, hle]
      have hstep : stepOp s Op.alloc =
          { tracker := { s.tracker with m_next := s.tracker.m_next + 1 },
            live := s.tracker.m_next :: s.live,
            issued := s.tracker.m_next :: s.issued } := by
        simp [stepOp, hexb, alloc_channel_cursor s.tracker hle, hmod]
      rw [hstep]
      refine ⟨?_, ?_, ?_, ?_, ?_, ?_, ?_, ?_⟩
      · exact Nat.le_succ_of_le hinv.next_lb
      · exact Nat.succ_le_succ (hinv.max_eq ▸ hle)
      · exact hinv.max_eq
      · intro c hc
        rcases List.mem_cons.mp hc with h | h
        · subst h; exact ⟨hinv.next_lb, Nat.lt_succ_self _⟩
        · have := hinv.live_bounds c h
          exact ⟨this.1, Nat.lt_succ_of_lt this.2⟩
      · intro c hc
        have := hinv.queue_bounds c hc
        exact ⟨this.1, Nat.lt_succ_of_lt this.2⟩
      · show (s.tracker.m_next :: (s.live ++ s.tracker.m_unused_channels)).Nodup
        refine List.nodup_cons.mpr ⟨?_, hinv.nodup_live_queue⟩
        intro hmem
        rcases List.mem_append.mp hmem with h | h
        · exact absurd (hinv.live_bounds _ h).2 (lt_irrefl _)
        · exact absurd (hinv.queue_bounds _ h).2 (lt_irrefl _)
      · intro c hc
        rcases List.mem_cons.mp hc with h | h
        · subst h; exact List.mem_cons_self _ _
        · exact List.mem_cons_of_mem _ (hinv.live_issued c h)
      · intro c hc
        exact List.mem_cons_of_mem _ (hinv.queue_issued c hc)
    · -- reuse from the FIFO queue
      have hqne : s.tracker.m_unused_channels ≠ [] := by
        intro hnil
        have ht : s.tracker.exhaustedB = true := by
          simp [ChannelTracker.exhaustedB, hle, hnil]
        exact absurd (ht.symm.trans hex) (by decide)
      obtain ⟨c, rest, hq⟩ := List.exists_cons_of_ne_nil hqne
      have hcq : c ∈ s.tracker.m_unused_channels := by
        rw [hq]; exact List.mem_cons_self _ _
      have hexb : s.tracker.exhaustedB = false := by
        simp [ChannelTracker.exhaustedB, List.isEmpty_iff, hq]
      have hstep : stepOp s Op.alloc =
          { tracker := { s.tracker with m_unused_channels := rest },
            live := c :: s.live,
            issued := c :: s.issued } := by
        simp [stepOp, hexb, alloc_channel_queue s.tracker c rest hle hq]
      rw [hstep]
      refine ⟨hinv.next_lb, hinv.next_ub, hinv.max_eq, ?_, ?_, ?_, ?_, ?_⟩
      · intro x hx
        rcases List.mem_cons.mp hx with h | h
        · subst h; exact hinv.queue_bounds x hcq
        · exact hinv.live_bounds x h
      · intro x hx
        refine hinv.queue_bounds x ?_
        rw [hq]; exact List.mem_cons_of_mem _ hx
      · show ((c :: s.live) ++ rest).Nodup
        have hperm : List.Perm (s.live ++ c :: rest) (c :: (s.live ++ rest)) :=
          List.perm_middle
        have := hperm.nodup (hq ▸ hinv.nodup_live_queue)
        simpa using this
      · intro x hx
        rcases List.mem_cons.mp hx with h | h
        · subst h; exact List.mem_cons_self _ _
        · exact List.mem_cons_of_mem _ (hinv.live_issued x h)
      · intro x hx
        refine List.mem_cons_of_mem _ (hinv.queue_issued x ?_)
        rw [hq]; exact List.mem_cons_of_mem _ hx

theorem stepOp_free_inv (mn mx c : Nat) (s : TrackerTrace)
    (hc : c ∈ s.live) (hinv : TrackerInv mn mx s) :
    TrackerInv mn mx (stepOp s (Op.free c)) := by
  have hstep : stepOp s (Op.free c) =
      { tracker := { s.tracker with
          m_unused_channels := s.tracker.m_unused_channels ++ [c] },
        live := s.live.erase c,
        issued := s.issued } := rfl
  rw [hstep]
  refine ⟨hinv.next_lb, hinv.next_ub, hinv.max_eq, ?_, ?_, ?_, ?_, ?_⟩
  · intro x hx
    exact hinv.live_bounds x (List.mem_of_mem_erase hx)
  · intro x hx
    rcases List.mem_append.mp hx with h | h
    · exact hinv.queue_bounds x h
    · have : x = c := by simpa using h
      subst this; exact hinv.live_bounds x hc
  · show (s.live.erase c ++
      (s.tracker.m_unused_channels ++ [c])).Nodup
    have h1 : List.Perm s.live (c :: s.live.erase c) := List.perm_cons_erase hc
    have h2 : List.Perm (s.live ++ s.tracker.m_unused_channels)
        ((c :: s.live.erase c) ++ s.tracker.m_unused_channels) :=
      h1.append_right _
    have h3 : ((c :: s.live.erase c) ++ s.tracker.m_unused_channels).Nodup :=
      h2.nodup hinv.nodup_live_queue
    have h4 : (c :: (s.live.erase c ++ s.tracker.m_unused_channels)).Nodup := by
      simpa using h3
    have h5 : List.Perm
        (c :: (s.live.erase c ++ s.tracker.m_unused_channels))
        ((s.live.erase c ++ s.tracker.m_unused_channels) ++ [c]) :=
      (List.perm_append_singleton _ _).symm
    have h6 := h5.nodup h4
    simpa [List.append_assoc] using h6
  · intro x hx
    exact hinv.live_issued x (List.mem_of_mem_erase hx)
  · intro x hx
    rcases List.mem_append.mp hx with h | h
    · exact hinv.queue_issued x h
    · have : x = c := by simpa using h
      subst this; exact hinv.live_issued x hc

theorem runOps_inv (mn mx : Nat) (hmx : mx + 1 < channelMod) :
    ∀ (ops : List Op) (s : TrackerTrace), TrackerInv mn mx s →
      validOps s ops = true → TrackerInv mn mx (runOps s ops)
  | [], _, hinv, _ => hinv
  | Op.alloc :: ops, s, hinv, hv =>
    runOps_inv mn mx hmx ops (stepOp s Op.alloc)
      (stepOp_alloc_inv mn mx s hmx hinv) hv
  | Op.free c :: ops, s, hinv, hv => by
    have hv' := hv
    simp only [validOps, Bool.and_eq_true, decide_eq_true_eq] at hv'
    exact runOps_inv mn mx hmx ops (stepOp s (Op.free c))
      (stepOp_free_inv mn mx c s hv'.1 hinv) hv'.2

/-- Abstract schema input of the DC hash (`g_dcf`); the spec treats the
fingerprint function as an opaque pure function of this input. -/
abbrev Schema := List Nat

/-- Embedding of the DC-hash resolution in the `ClientAgent` constructor:
`m_hash = config_hash` when `config_hash > 0x0`, otherwise
`m_hash = dclass::legacy_hash(g_dcf)`.  The function `legacy_hash` lives
outside the given source file; the spec treats it as a deterministic pure
function, so it is passed here as an arbitrary function argument. -/
def resolve_hash (legacy_hash : Schema → Nat) (config_hash : Nat)
    (g_dcf : Schema) : Nat :=
  if 0 < config_hash then config_hash else legacy_hash g_dcf

/-- TLS context option flags assembled in the constructor before building
the `SslAcceptor`: `default_workarounds` always, and `no_sslv2`,
`no_sslv3`, `no_tlsv1` exactly when the corresponding protocol is
disabled in the configuration. -/
structure SslContextOptions where
  default_workarounds : Bool
  no_sslv2 : Bool
  no_sslv3 : Bool
  no_tlsv1 : Bool
deriving Repr, DecidableEq

/-- Computes the option flags from the three boolean config variables
(`tls/sslv2`, `tls/sslv3`, `tls/tlsv1`). -/
def ssl_options (sslv2 sslv3 tlsv1 : Bool) : SslContextOptions :=
  { default_workarounds := true,
    no_sslv2 := !sslv2,
    no_sslv3 := !sslv3,
    no_tlsv1 := !tlsv1 }

/-- Which net acceptor the constructor builds: a plain `TcpAcceptor`, or
an `SslAcceptor` carrying the option flags and the certificate, key and
chain file paths it was built from. -/
inductive ListenerKind where
  | tcp : ListenerKind
  | ssl : SslContextOptions → String → String → String → ListenerKind
deriving Repr, DecidableEq

/-- Configuration values read by the `ClientAgent` constructor, with the
defaults declared by the corresponding `ConfigVariable`s. -/
structure AgentConfig where
  bind_addr : String := "0.0.0.0:7198"
  version : String := "dev"
  manual_dc_hash : Nat := 0
  certificate : String := ""
  key_file : String := ""
  chain_file : String := ""
  sslv2 : Bool := false
  sslv3 : Bool := false
  tlsv1 : Bool := true
deriving Repr, DecidableEq

/-- Observable outcome of running the `ClientAgent` constructor:
whether the process exited fatally (and with which code), the fatal
diagnostics and warnings written to the log, which acceptor was built,
whether `bind` was ever called, and the address bound on success. -/
structure StartupOutcome where
  fatalExit : Option Nat
  fatalMessages : List String
  warnings : List String
  listener : Option ListenerKind
  bindAttempted : Bool
  boundAddress : Option String
deriving Repr, DecidableEq

/-- Final part of the constructor: `m_net_acceptor->bind(...)` followed by
`exit(1)` with two fatal log lines when the error code is non-zero, else
`m_net_acceptor->start()`.  `bindOk` abstracts the error code from the
operating system (`true` = bind succeeded). -/
def bindAndStart (k : ListenerKind) (addr : String) (bindOk : Bool) :
    StartupOutcome :=
  if bindOk then
    { fatalExit := none, fatalMessages := [], warnings := [],
      listener := some k, bindAttempted := true, boundAddress := some addr }
  else
    { fatalExit := some 1,
      fatalMessages := ["Could not bind listening port: " ++ addr],
      warnings := [],
      listener := some k, bindAttempted := true, boundAddress := none }

/-- Embedding of the transport-selection and bind logic of the
`ClientAgent` constructor (the code from loading the TLS config vars to
`m_net_acceptor->start()`): both TLS fields empty builds a `TcpAcceptor`
(the source has only a TODO comment there, so no warning is logged);
exactly one of them empty logs a fatal line and calls `exit(1)` before
any bind; both present build an `SslAcceptor` from the option flags and
the configured files.  Then the selected acceptor binds the configured
address. -/
def clientAgentStartup (cfg : AgentConfig) (bindOk : Bool) : StartupOutcome :=
  if cfg.certificate.isEmpty && cfg.key_file.isEmpty then
    bindAndStart ListenerKind.tcp cfg.bind_addr bindOk
  else if cfg.certificate.isEmpty != cfg.key_file.isEmpty then
    { fatalExit := some 1,
      fatalMessages := ["TLS requested but either certificate or key is missing."],
      warnings := [],
      listener := none, bindAttempted := false, boundAddress := none }
  else
    bindAndStart
      (ListenerKind.ssl (ssl_options cfg.sslv2 cfg.sslv3 cfg.tlsv1)
        cfg.certificate cfg.key_file cfg.chain_file)
      cfg.bind_addr bindOk

/-- Remote endpoint of an accepted socket, as resolved by
`remote_endpoint()`. -/
structure Endpoint where
  address : String
  port : Nat
deriving Repr, DecidableEq

/-- Observable effects of one run of a per-connection accept handler. -/
structure HandlerOutcome where
  clientInstantiated : Bool
  errorLogged : Bool
  processExited : Bool
deriving Repr, DecidableEq

/-- Embedding of `ClientAgent::handle_tcp`: `remote` is the result of
`socket->remote_endpoint()`, with `none` for the case in which the call
raises because the peer already disconnected.  On `none` the handler
just returns; otherwise it logs a debug line (not an error) and calls
`ClientFactory::instantiate_client`.  The handler never touches the
channel tracker, which is threaded through unchanged. -/
def handle_tcp (remote : Option Endpoint) (t : ChannelTracker) :
    HandlerOutcome × ChannelTracker :=
  match remote with
  | none => ({ clientInstantiated := false, errorLogged := false,
               processExited := false }, t)
  | some _ => ({ clientInstantiated := true, errorLogged := false,
                 processExited := false }, t)

/-- Embedding of `ClientAgent::handle_ssl`: identical control flow to
`handle_tcp`, with `remote` the result of
`stream->next_layer().remote_endpoint()`. -/
def handle_ssl (remote : Option Endpoint) (t : ChannelTracker) :
    HandlerOutcome × ChannelTracker :=
  match remote with
  | none => ({ clientInstantiated := false, errorLogged := false,
               processExited := false }, t)
  | some _ => ({ clientInstantiated := true, errorLogged := false,
                 processExited := false }, t)

/-- C1: `alloc_channel` follows exactly the stated algorithm.  While the
cursor has not moved past `m_max` it returns the current cursor value and
advances the cursor (the resulting state keeps the reuse queue untouched,
so the queue is never consulted while fresh cursor ids remain); once the
cursor has passed `m_max`, a non-empty reuse queue is served FIFO (the
head of the queue is its oldest element, `free_channel` appends at the
back); otherwise the distinguished `EXHAUSTED` value is returned with the
state unchanged.  The function is total, so it never blocks. -/
theorem alloc_channel_algorithm (t : ChannelTracker) :
    (t.m_next ≤ t.m_max →
      t.alloc_channel =
        (t.m_next, { t with m_next := (t.m_next + 1) % channelMod })) ∧
    (¬ t.m_next ≤ t.m_max →
      ∀ c rest, t.m_unused_channels = c :: rest →
        t.alloc_channel = (c, { t with m_unused_channels := rest })) ∧
    (¬ t.m_next ≤ t.m_max → t.m_unused_channels = [] →
      t.alloc_channel = (EXHAUSTED, t)) :=
  ⟨fun h => alloc_channel_cursor t h,
   fun h c rest hq => alloc_channel_queue t c rest h hq,
   fun h hq => alloc_channel_exhausted t h hq⟩

/-- Witness for C1: the three branches evaluated on concrete trackers. -/
theorem alloc_channel_algorithm_witness :
    (ChannelTracker.mk 100 102 [5]).alloc_channel =
      (100, ChannelTracker.mk 101 102 [5]) ∧
    (ChannelTracker.mk 103 102 [7, 8]).alloc_channel =
      (7, ChannelTracker.mk 103 102 [8]) ∧
    (ChannelTracker.mk 103 102 []).alloc_channel =
      (EXHAUSTED, ChannelTracker.mk 103 102 []) := by
  refine ⟨?_, ?_, ?_⟩
  · rw [(alloc_channel_algorithm (ChannelTracker.mk 100 102 [5])).1 (by decide)]
    decide
  · rw [(alloc_channel_algorithm (ChannelTracker.mk 103 102 [7, 8])).2.1
      (by decide) 7 [8] rfl]
  · rw [(alloc_channel_algorithm (ChannelTracker.mk 103 102 [])).2.2
      (by decide) rfl]

/-- C2: over the range `[100, 102]`, three allocations return 100, 101,
102 in that order, a fourth returns `EXHAUSTED`, and after
`free_channel(101)` the next allocation returns 101. -/
theorem range_reuse_order :
    (ChannelTracker.init 100 102).alloc_channel.1 = 100 ∧
    (ChannelTracker.init 100 102).alloc_channel.2.alloc_channel.1 = 101 ∧
    (ChannelTracker.init 100
      102).alloc_channel.2.alloc_channel.2.alloc_channel.1 = 102 ∧
    (ChannelTracker.init 100
      102).alloc_channel.2.alloc_channel.2.alloc_channel.2.alloc_channel.1 =
        EXHAUSTED ∧
    ((ChannelTracker.init 100
      102).alloc_channel.2.alloc_channel.2.alloc_channel.2.alloc_channel.2.free_channel
        101).alloc_channel.1 = 101 := by
  decide

/-- C5: `free_channel(id)` unconditionally appends `id` to the back of
the reuse queue for every tracker state and every argument, changes
nothing else, and is total (it never fails); in particular no check that
`id` was previously allocated or is still live is performed. -/
theorem free_channel_unconditional (t : ChannelTracker) (c : Nat) :
    (t.free_channel c).m_unused_channels = t.m_unused_channels ++ [c] ∧
    (t.free_channel c).m_next = t.m_next ∧
    (t.free_channel c).m_max = t.m_max :=
  ⟨rfl, rfl, rfl⟩

/-- C9: when the remote endpoint resolution raises because the peer
already disconnected (`remote = none`), both accept handlers return
without instantiating a client, without logging an error, without
terminating the process, and without touching the channel tracker. -/
theorem vanishing_peer_silent (t : ChannelTracker) :
    handle_tcp none t =
      ({ clientInstantiated := false, errorLogged := false,
         processExited := false }, t) ∧
    handle_ssl none t =
      ({ clientInstantiated := false, errorLogged := false,
         processExited := false }, t) :=
  ⟨rfl, rfl⟩

/-- Counterexample to C3 as stated: the claim quantifies over every
sequence of operations, but `free_channel` is unchecked, so freeing the
same id twice makes two later allocations both return it while both are
still live.  Concretely, over the range `[100, 100]` the sequence
alloc, free 100, free 100, alloc, alloc leaves two live allocations of
channel 100. -/
theorem live_collision_on_double_free :
    ¬ ((runOps (initTrace 100 100)
        [Op.alloc, Op.free 100, Op.free 100, Op.alloc, Op.alloc]).live.Nodup) := by
  decide

/-- C3 (amended): for every sequence of operations in which each
`free_channel` call releases a channel that is live at that moment (the
caller contract the spec states for `release`), and whose range satisfies
`mn ≤ mx` with `mx` below the top of the 64-bit channel space (so the
cursor cannot wrap), the multiset of live allocation results never holds
a duplicate: no two concurrently live allocations are equal. -/
theorem alloc_channel_unique (mn mx : Nat) (ops : List Op)
    (hle : mn ≤ mx) (hmx : mx + 1 < channelMod)
    (hvalid : validOps (initTrace mn mx) ops = true) :
    (runOps (initTrace mn mx) ops).live.Nodup :=
  ((runOps_inv mn mx hmx ops (initTrace mn mx) (initTrace_inv mn mx hle)
    hvalid).nodup_live_queue).of_append_left

/-- Witness for C3: a concrete compliant sequence over `[100, 102]`. -/
theorem alloc_channel_unique_witness :
    (runOps (initTrace 100 102)
      [Op.alloc, Op.alloc, Op.free 100, Op.alloc, Op.alloc]).live.Nodup :=
  alloc_channel_unique 100 102
    [Op.alloc, Op.alloc, Op.free 100, Op.alloc, Op.alloc]
    (by decide) (by decide) (by decide)

/-- Counterexample to C4 as stated: the claim quantifies over any
sequence of calls, but `free_channel(999)` on a fresh tracker over
`[100, 102]` puts 999 into the reuse queue although no allocation ever
issued it. -/
theorem queue_foreign_id_on_unchecked_free :
    ¬ (∀ c ∈ (runOps (initTrace 100 102)
          [Op.free 999]).tracker.m_unused_channels,
        c ∈ (runOps (initTrace 100 102) [Op.free 999]).issued) := by
  decide

/-- C4 (amended): every state reached from construction over a valid
range (`mn ≤ mx`, `mx` below the top of the 64-bit channel space) by a
sequence of calls in which each `free_channel` releases a currently live
channel satisfies the invariants: the cursor is at most `mx + 1`, the
reuse queue contains only ids previously issued by `alloc_channel`, and
no id is in the reuse queue while it is still live. -/
theorem tracker_invariants_hold (mn mx : Nat) (ops : List Op)
    (hle : mn ≤ mx) (hmx : mx + 1 < channelMod)
    (hvalid : validOps (initTrace mn mx) ops = true) :
    (runOps (initTrace mn mx) ops).tracker.m_next ≤ mx + 1 ∧
    (∀ c ∈ (runOps (initTrace mn mx) ops).tracker.m_unused_channels,
      c ∈ (runOps (initTrace mn mx) ops).issued) ∧
    (∀ c ∈ (runOps (initTrace mn mx) ops).tracker.m_unused_channels,
      c ∉ (runOps (initTrace mn mx) ops).live) := by
  have hinv := runOps_inv mn mx hmx ops (initTrace mn mx)
    (initTrace_inv mn mx hle) hvalid
  refine ⟨hinv.next_ub, hinv.queue_issued, ?_⟩
  intro c hc hcl
  exact (List.disjoint_of_nodup_append hinv.nodup_live_queue) hcl hc

/-- Witness for C4: a concrete compliant sequence over `[100, 102]`. -/
theorem tracker_invariants_hold_witness :
    (runOps (initTrace 100 102)
      [Op.alloc, Op.free 100, Op.alloc]).tracker.m_next ≤ 102 + 1 ∧
    (∀ c ∈ (runOps (initTrace 100 102)
        [Op.alloc, Op.free 100, Op.alloc]).tracker.m_unused_channels,
      c ∈ (runOps (initTrace 100 102)
        [Op.alloc, Op.free 100, Op.alloc]).issued) ∧
    (∀ c ∈ (runOps (initTrace 100 102)
        [Op.alloc, Op.free 100, Op.alloc]).tracker.m_unused_channels,
      c ∉ (runOps (initTrace 100 102)
        [Op.alloc, Op.free 100, Op.alloc]).live) :=
  tracker_invariants_hold 100 102 [Op.alloc, Op.free 100, Op.alloc]
    (by decide) (by decide) (by decide)

/-- C10: the `EXHAUSTED` result of `alloc_channel` is the channel value
`0`, the same value as the invalid-channel sentinel, and for every
tracker reached from a range that excludes 0 (`0 < mn`, as the
channel-range constraints require) by callers that release only live
channels, the next `alloc_channel` returns `0` exactly when the tracker
is exhausted: a successful allocation never equals 0, so a 0 return
unambiguously means exhaustion. -/
theorem exhausted_sentinel (mn mx : Nat) (ops : List Op)
    (hmn : 0 < mn) (hle : mn ≤ mx) (hmx : mx + 1 < channelMod)
    (hvalid : validOps (initTrace mn mx) ops = true) :
    EXHAUSTED = INVALID_CHANNEL ∧
    ((runOps (initTrace mn mx) ops).tracker.alloc_channel.1 = EXHAUSTED ↔
      (runOps (initTrace mn mx) ops).tracker.exhaustedB = true) := by
  have hinv := runOps_inv mn mx hmx ops (initTrace mn mx)
    (initTrace_inv mn mx hle) hvalid
  refine ⟨rfl, ?_, ?_⟩
  · intro h0
    by_contra hne
    by_cases hle2 : (runOps (initTrace mn mx) ops).tracker.m_next ≤
        (runOps (initTrace mn mx) ops).tracker.m_max
    · rw [alloc_channel_cursor _ hle2] at h0
      have hlb := hinv.next_lb
      simp [EXHAUSTED] at h0
      omega
    · have hqne : (runOps (initTrace mn mx) ops).tracker.m_unused_channels ≠
          [] := by
        intro hnil
        exact hne (by simp [ChannelTracker.exhaustedB, hle2, hnil])
      obtain ⟨c, rest, hq⟩ := List.exists_cons_of_ne_nil hqne
      rw [alloc_channel_queue _ c rest hle2 hq] at h0
      simp [EXHAUSTED] at h0
      have hcb := hinv.queue_bounds c (by rw [hq]; exact List.mem_cons_self _ _)
      omega
  · intro hex
    have h12 := hex
    simp [ChannelTracker.exhaustedB, List.isEmpty_iff] at h12
    obtain ⟨h1, h2⟩ := h12
    have h1n : ¬ (runOps (initTrace mn mx) ops).tracker.m_next ≤
        (runOps (initTrace mn mx) ops).tracker.m_max := by omega
    rw [alloc_channel_exhausted _ h1n h2]
    rfl

/-- Witness for C10: the compliant sequence that drains `[100, 101]`. -/
theorem exhausted_sentinel_witness :
    EXHAUSTED = INVALID_CHANNEL ∧
    ((runOps (initTrace 100 101)
        [Op.alloc, Op.alloc]).tracker.alloc_channel.1 = EXHAUSTED ↔
      (runOps (initTrace 100 101)
        [Op.alloc, Op.alloc]).tracker.exhaustedB = true) :=
  exhausted_sentinel 100 101 [Op.alloc, Op.alloc]
    (by decide) (by decide) (by decide) (by decide)

/-- C6: the schema hash resolved at construction is the configured
override verbatim whenever the override is positive, regardless of the
schema; with override 0 it is the value of the pure hash function on the
schema, so two constructions with override 0 and identical schema input
resolve identical hashes.  The resolution is a pure function of the
configuration and the schema, computed once at construction. -/
theorem schema_hash_resolution (legacy_hash : Schema → Nat)
    (config_hash : Nat) (s1 s2 : Schema) :
    (0 < config_hash →
      resolve_hash legacy_hash config_hash s1 = config_hash) ∧
    (config_hash = 0 →
      resolve_hash legacy_hash config_hash s1 = legacy_hash s1 ∧
      (s1 = s2 →
        resolve_hash legacy_hash config_hash s1 =
          resolve_hash legacy_hash config_hash s2)) := by
  constructor
  · intro h
    simp [resolve_hash, h]
  · intro h
    subst h
    exact ⟨by simp [resolve_hash], fun hs => by rw [hs]⟩

/-- Witness for C6: a concrete hash function and schema. -/
theorem schema_hash_resolution_witness :
    resolve_hash (fun s => s.length + 7) 5 [1, 2] = 5 ∧
    resolve_hash (fun s => s.length + 7) 0 [1, 2] = [1, 2].length + 7 :=
  ⟨(schema_hash_resolution (fun s => s.length + 7) 5 [1, 2] [1, 2]).1
      (by decide),
   ((schema_hash_resolution (fun s => s.length + 7) 0 [1, 2] [1, 2]).2
      rfl).1⟩

/-- C7: if exactly one of the TLS certificate and key configuration
values is non-empty, startup logs a fatal diagnostic and exits with the
non-zero status 1, no acceptor is built, and no bind is ever attempted
on the listening address. -/
theorem tls_asymmetry_fatal (cfg : AgentConfig) (bindOk : Bool)
    (h : cfg.certificate.isEmpty ≠ cfg.key_file.isEmpty) :
    (clientAgentStartup cfg bindOk).fatalExit = some 1 ∧
    (∀ c, (clientAgentStartup cfg bindOk).fatalExit = some c → c ≠ 0) ∧
    (clientAgentStartup cfg bindOk).fatalMessages ≠ [] ∧
    (clientAgentStartup cfg bindOk).bindAttempted = false ∧
    (clientAgentStartup cfg bindOk).boundAddress = none := by
  have hand : (cfg.certificate.isEmpty && cfg.key_file.isEmpty) = false := by
    cases hc : cfg.certificate.isEmpty <;>
      cases hk : cfg.key_file.isEmpty <;> simp_all
  have hbne : (cfg.certificate.isEmpty != cfg.key_file.isEmpty) = true := by
    cases hc : cfg.certificate.isEmpty <;>
      cases hk : cfg.key_file.isEmpty <;> simp_all
  simp [clientAgentStartup, hand, hbne]

/-- Witness for C7: certificate set, key empty. -/
theorem tls_asymmetry_fatal_witness :
    (clientAgentStartup { certificate := "server.crt" } true).fatalExit =
      some 1 ∧
    (∀ c, (clientAgentStartup { certificate := "server.crt" }
        true).fatalExit = some c → c ≠ 0) ∧
    (clientAgentStartup { certificate := "server.crt" }
      true).fatalMessages ≠ [] ∧
    (clientAgentStartup { certificate := "server.crt" }
      true).bindAttempted = false ∧
    (clientAgentStartup { certificate := "server.crt" }
      true).boundAddress = none :=
  tls_asymmetry_fatal { certificate := "server.crt" } true (by decide)

/-- C8 (code bug): with both TLS fields empty and a succeeding bind, the
constructor selects the plaintext TCP acceptor, binds it on the
configured address and continues non-fatally, but the warning list is
empty: the source has only a TODO comment where the operator-visible
warning should be emitted.  With both fields present it builds the
SSL acceptor from the option flags and the configured material instead. -/
theorem plaintext_fallback_no_warning :
    (clientAgentStartup { } true =
      { fatalExit := none, fatalMessages := [], warnings := [],
        listener := some ListenerKind.tcp, bindAttempted := true,
        boundAddress := some "0.0.0.0:7198" }) ∧
    (clientAgentStartup
        { certificate := "server.crt", key_file := "server.key" } true =
      { fatalExit := none, fatalMessages := [], warnings := [],
        listener := some (ListenerKind.ssl (ssl_options false false true)
          "server.crt" "server.key" ""),
        bindAttempted := true,
        boundAddress := some "0.0.0.0:7198" }) :=
  ⟨rfl, rfl⟩
